import Mathlib

/-!
Verification of the auto-scroll marshal
(src/state/auto-scroll-marshal/auto-scroll-marshal.js).

Numbers are modelled as exact rationals. Effectful code (fluidScroll,
jumpScroll, onStateChange) is embedded as a pure function from an
environment of external collaborators and a state snapshot to a trace of
emitted effects; the raf-schd frame scheduler is modelled as a single-slot
pending call per target.
-/

namespace AutoScrollMarshal

/-- A 2D vector in page pixel space, from the repository's data model. -/
structure Position where
  x : ℚ
  y : ℚ
deriving DecidableEq, Repr

/-- A rectangle describing a scrollable surface's visible frame. -/
structure Area where
  top : ℚ
  right : ℚ
  bottom : ℚ
  left : ℚ
  width : ℚ
  height : ℚ
deriving DecidableEq, Repr

/-- Distances to the four edges, the shape of the local `distance` value in
getRequiredScroll. -/
structure Spacing where
  top : ℚ
  right : ℚ
  bottom : ℚ
  left : ℚ
deriving DecidableEq, Repr

/-- Modelled from the spec: `add` from ../position (not among the packaged
sources); Position values are combined by componentwise vector addition. -/
def add (a b : Position) : Position :=
  { x := a.x + b.x, y := a.y + b.y }

/-- Modelled from the spec: `isEqual` from ../position (not among the
packaged sources); Position values are compared by structural equality. -/
def isEqual (a b : Position) : Bool :=
  a.x = b.x && a.y = b.y

/-- Modelled from the spec: an axis descriptor from ../axis (not among the
packaged sources) selects the Rectangle field that measures its size:
height for the vertical axis, width for the horizontal axis. -/
structure Axis where
  size : Area → ℚ

/-- The vertical axis descriptor: its size field is the height. -/
def vertical : Axis := { size := Area.height }

/-- The horizontal axis descriptor: its size field is the width. -/
def horizontal : Axis := { size := Area.width }

/-- The shape of the `config` object controlling fluid auto scrolling. -/
structure AutoScrollConfig where
  startFrom : ℚ
  maxSpeedAt : ℚ
  maxScrollSpeed : ℚ
  ease : ℚ → ℚ

/-- The values used to control how the fluid auto scroll feels:
startFrom and maxSpeedAt are percentage distances from the edge of the
container, maxScrollSpeed is in pixels per frame, and ease is the
quadratic easing function Math.pow(percentage, 2). -/
def config : AutoScrollConfig :=
  { startFrom := 1/4
    maxSpeedAt := 1/20
    maxScrollSpeed := 28
    ease := fun percentage => percentage ^ 2 }

/-- The zero vector. -/
def origin : Position := { x := 0, y := 0 }

/-- Per-axis pixel thresholds derived from a container's size. -/
structure PixelThresholds where
  startFrom : ℚ
  maxSpeedAt : ℚ
  accelerationPlane : ℚ
deriving DecidableEq, Repr

/-- Converts the percentages in the config into actual pixel values. -/
def getPixelThresholds (container : Area) (axis : Axis) : PixelThresholds :=
  let startFrom : ℚ := axis.size container * config.startFrom
  let maxSpeedAt : ℚ := axis.size container * config.maxSpeedAt
  let accelerationPlane : ℚ := startFrom - maxSpeedAt
  { startFrom, maxSpeedAt, accelerationPlane }

/-- Maps a single-axis distance-to-edge into a scroll speed. -/
def getSpeed (distance : ℚ) (thresholds : PixelThresholds) : ℚ :=
  -- Not close enough to the edge
  if distance ≥ thresholds.startFrom then 0
  -- Already past the maxSpeedAt point
  else if distance ≤ thresholds.maxSpeedAt then config.maxScrollSpeed
  -- A scroll as a percentage of the max scroll speed
  else
    let distancePastStart : ℚ := thresholds.startFrom - distance
    let percentage : ℚ := distancePastStart / thresholds.accelerationPlane
    let transformed : ℚ := config.ease percentage
    config.maxScrollSpeed * transformed

/-- Returns none if no scroll is required, otherwise the required scroll
vector for the given container and drag center. -/
def getRequiredScroll (container : Area) (center : Position) : Option Position :=
  let distance : Spacing :=
    { top := center.y - container.top
      right := container.right - center.x
      bottom := container.bottom - center.y
      left := center.x - container.left }
  let y : ℚ :=
    let thresholds := getPixelThresholds container vertical
    if distance.bottom < distance.top then getSpeed distance.bottom thresholds
    -- closer to top
    else -1 * getSpeed distance.top thresholds
  let x : ℚ :=
    let thresholds := getPixelThresholds container horizontal
    if distance.right < distance.left then getSpeed distance.right thresholds
    -- closer to left
    else -1 * getSpeed distance.left thresholds
  let required : Position := { x, y }
  if isEqual required origin then none else some required

/-- True when the subject is larger than the frame in either dimension. -/
def isTooBigForAutoScrolling (frame subject : Area) : Bool :=
  subject.width > frame.width || subject.height > frame.height

/-- A draggable identifier. -/
abbrev DraggableId := String

/-- A droppable identifier. -/
abbrev DroppableId := String

/-- The closest scrollable ancestor of a droppable; only its frame is read
by this core. -/
structure ClosestScrollable where
  frame : Area
deriving DecidableEq, Repr

/-- The viewport of a droppable dimension, carrying the optional closest
scrollable ancestor. -/
structure DroppableViewport where
  closestScrollable : Option ClosestScrollable
deriving DecidableEq, Repr

/-- A droppable dimension: its descriptor id and its viewport. -/
structure DroppableDimension where
  descriptorId : DroppableId
  viewport : DroppableViewport
deriving DecidableEq, Repr

/-- The page-space geometry of a draggable; only withMargin is read here. -/
structure DraggablePage where
  withMargin : Area
deriving DecidableEq, Repr

/-- A draggable dimension: its page geometry. -/
structure DraggableDimension where
  page : DraggablePage
deriving DecidableEq, Repr

/-- drag.initial: the dragged item's descriptor id and the auto scroll
mode, FLUID or JUMP. -/
structure DragInitial where
  descriptorId : DraggableId
  autoScrollMode : String
deriving DecidableEq, Repr

/-- drag.current: the current page center and client selection point. -/
structure DragCurrent where
  pageCenter : Position
  clientSelection : Position
deriving DecidableEq, Repr

/-- drag.impact.destination: which droppable currently holds the item. -/
structure DraggableLocation where
  droppableId : DroppableId
  index : ℕ
deriving DecidableEq, Repr

/-- The drag payload of a state snapshot. -/
structure DragState where
  initial : DragInitial
  current : DragCurrent
  scrollJumpRequest : Option Position
  impactDestination : Option DraggableLocation
deriving DecidableEq, Repr

/-- state.dimension: the registered draggable and droppable dimensions,
modelled as total lookup maps. -/
structure DimensionState where
  draggable : DraggableId → DraggableDimension
  droppable : DroppableId → DroppableDimension

/-- A drag state snapshot: phase string, optional drag payload and the
dimension registry. -/
structure State where
  phase : String
  drag : Option DragState
  dimension : DimensionState

/-- The external collaborators consumed by the marshal (viewport and
window-scroll geometry providers, scroll-capability oracles, overlap
oracles, and the spatial lookup of a scrollable droppable under a point),
specified only at their interface. -/
structure Env where
  getViewport : Area
  getWindowScrollPosition : Position
  canScrollWindow : Position → Bool
  canScrollDroppable : DroppableDimension → Position → Bool
  getWindowOverlap : Position → Option Position
  getDroppableOverlap : DroppableDimension → Position → Option Position
  getScrollableDroppableOver : Position → (DroppableId → DroppableDimension) → Option DroppableDimension

/-- An observable effect emitted by the marshal: console logging, a
frame-scheduled scroll per target, an immediate (synchronous) scroll per
target, a move of the dragged item, or cancellation of a scheduled
target. -/
inductive Effect where
  | logError (msg : String)
  | logWarn (msg : String)
  | scheduleWindowScroll (change : Position)
  | scheduleDroppableScroll (id : DroppableId) (change : Position)
  | scrollWindow (change : Position)
  | scrollDroppable (id : DroppableId) (change : Position)
  | move (id : DraggableId) (client : Position) (windowScroll : Position) (shouldAnimate : Bool)
  | cancelWindowScroll
  | cancelDroppableScroll
deriving DecidableEq, Repr

/-- The droppable half of fluidScroll, reached when the window was not
scrolled: find the scrollable droppable under the center and schedule a
droppable scroll when required and possible. The source casts the
returned droppable's closestScrollable as present; a droppable without one
yields no effect. -/
def fluidDroppableScroll (env : Env) (state : State) (drag : DragState)
    (draggable : DraggableDimension) : List Effect :=
  match env.getScrollableDroppableOver drag.current.pageCenter state.dimension.droppable with
  | none => []
  | some droppable =>
    match droppable.viewport.closestScrollable with
    | none => []
    | some closestScrollable =>
      if isTooBigForAutoScrolling closestScrollable.frame draggable.page.withMargin then []
      else
        match getRequiredScroll closestScrollable.frame drag.current.pageCenter with
        | none => []
        | some requiredFrameScroll =>
          if env.canScrollDroppable droppable requiredFrameScroll then
            [Effect.scheduleDroppableScroll droppable.descriptorId requiredFrameScroll]
          else []

/-- The fluid scroll path: fail fast when the dragged item is too big for
the viewport, then try the window, then the droppable. -/
def fluidScroll (env : Env) (state : State) : List Effect :=
  match state.drag with
  | none => [Effect.logError "Invalid drag state"]
  | some drag =>
    let draggable := state.dimension.draggable drag.initial.descriptorId
    let viewport := env.getViewport
    if isTooBigForAutoScrolling viewport draggable.page.withMargin then []
    else
      match getRequiredScroll viewport drag.current.pageCenter with
      | some requiredWindowScroll =>
        if env.canScrollWindow requiredWindowScroll then
          [Effect.scheduleWindowScroll requiredWindowScroll]
        else fluidDroppableScroll env state drag draggable
      | none => fluidDroppableScroll env state drag draggable

/-- Repositions the dragged item by the given offset from its current
client selection. -/
def performMove (env : Env) (state : State) (offset : Position) : List Effect :=
  match state.drag with
  | none => []
  | some drag =>
    let client := add drag.current.clientSelection offset
    [Effect.move drag.initial.descriptorId client env.getWindowScrollPosition true]

/-- The window half of jumpScroll, reached when no droppable absorbed the
request: move the item instead when the window cannot help, otherwise
compensate by any window overlap and scroll the window immediately. -/
def jumpScrollWindow (env : Env) (state : State) (request : Position)
    (draggable : DraggableDimension) : List Effect :=
  if isTooBigForAutoScrolling env.getViewport draggable.page.withMargin then
    performMove env state request
  else if !env.canScrollWindow request then
    Effect.logWarn "Jump scroll requested but it cannot be done by Droppable or the Window"
      :: performMove env state request
  else
    (match env.getWindowOverlap request with
     | some overlap => Effect.logWarn "WINDOW OVERLAP" :: performMove env state overlap
     | none => [])
    -- not scheduling - jump requests need to be performed instantly
    ++ [Effect.scrollWindow request]

/-- The jump scroll path: performed synchronously against a fixed
externally computed delta, preferring the destination droppable's closest
scrollable ancestor over the window, and falling back to repositioning the
dragged item when neither target can absorb the request. -/
def jumpScroll (env : Env) (state : State) : List Effect :=
  match state.drag with
  | none => []
  | some drag =>
    match drag.scrollJumpRequest with
    | none => []
    | some request =>
      let draggable := state.dimension.draggable drag.initial.descriptorId
      match drag.impactDestination with
      | none => [Effect.logError "Cannot perform a jump scroll when there is no destination"]
      | some destination =>
        let droppable := state.dimension.droppable destination.droppableId
        match droppable.viewport.closestScrollable with
        | some closestScrollable =>
          if isTooBigForAutoScrolling closestScrollable.frame draggable.page.withMargin then
            performMove env state request
          else if env.canScrollDroppable droppable request then
            -- not scheduling - jump requests need to be performed instantly
            -- if the window can also not be scrolled - adjust the item
            (if !env.canScrollWindow request then
               match env.getDroppableOverlap droppable request with
               | some overlap => Effect.logWarn "DROPPABLE OVERLAP" :: performMove env state overlap
               | none => []
             else [])
            ++ [Effect.scrollDroppable droppable.descriptorId request]
          else
            -- can now check if we need to scroll the window
            jumpScrollWindow env state request draggable
        | none => jumpScrollWindow env state request draggable

/-- The marshal's single notification entry point, dispatching on the drag
phase transition. The jump branch in the source falls through to the
cancellation check, whose condition is necessarily false there; the
fall-through is kept verbatim. -/
def onStateChange (env : Env) (previous current : State) : List Effect :=
  -- now dragging
  if current.phase = "DRAGGING" then
    match current.drag with
    | none => [Effect.logError "invalid drag state"]
    | some drag =>
      if drag.initial.autoScrollMode = "FLUID" then fluidScroll env current
      -- autoScrollMode == JUMP
      else if drag.scrollJumpRequest.isNone then []
      else
        jumpScroll env current
        ++ (if previous.phase = "DRAGGING" ∧ current.phase ≠ "DRAGGING" then
              [Effect.cancelWindowScroll, Effect.cancelDroppableScroll]
            else [])
  -- cancel any pending scrolls if no longer dragging
  else if previous.phase = "DRAGGING" ∧ current.phase ≠ "DRAGGING" then
    [Effect.cancelWindowScroll, Effect.cancelDroppableScroll]
  else []

/-- Modelled from the spec: the raf-schd frame scheduler held by the
marshal (the npm raf-schd package is not among the packaged sources) — one
single-slot latest pending call per target, flushed on the next frame
tick, cleared by cancel. -/
structure ScheduledScrolls where
  pendingWindow : Option Position
  pendingDroppable : Option (DroppableId × Position)
deriving DecidableEq, Repr

/-- How a single emitted effect updates the scheduler slots: scheduling
coalesces to the latest pending call per target (last write wins) and
cancellation clears the target's slot; other effects do not touch them. -/
def applyEffect (s : ScheduledScrolls) : Effect → ScheduledScrolls
  | Effect.scheduleWindowScroll change => { s with pendingWindow := some change }
  | Effect.scheduleDroppableScroll id change => { s with pendingDroppable := some (id, change) }
  | Effect.cancelWindowScroll => { s with pendingWindow := none }
  | Effect.cancelDroppableScroll => { s with pendingDroppable := none }
  | _ => s

/-- Updates the scheduler slots over a whole effect trace. -/
def applyEffects (s : ScheduledScrolls) (effects : List Effect) : ScheduledScrolls :=
  effects.foldl applyEffect s

/-- The scroll primitives actually invoked on the next frame tick: each
still-pending slot issues its scroll. -/
def flushScheduled (s : ScheduledScrolls) : List Effect :=
  (match s.pendingWindow with
   | some change => [Effect.scrollWindow change]
   | none => [])
  ++ (match s.pendingDroppable with
      | some (id, change) => [Effect.scrollDroppable id change]
      | none => [])

/-! Helper lemmas shared by the claim theorems. -/

/-- A let-free normal form of getSpeed. -/
theorem getSpeed_def (d : ℚ) (t : PixelThresholds) :
    getSpeed d t =
      if t.startFrom ≤ d then 0
      else if d ≤ t.maxSpeedAt then 28
      else 28 * ((t.startFrom - d) / t.accelerationPlane) ^ 2 := rfl

/-- The speed function never returns a negative value. -/
theorem getSpeed_nonneg (d : ℚ) (t : PixelThresholds) : 0 ≤ getSpeed d t := by
  rw [getSpeed_def]
  split_ifs with h1 h2
  · exact le_refl 0
  · norm_num
  · positivity

/-- The thresholds of any container satisfy the defining relation between
the acceleration plane and the two distance thresholds. -/
theorem getPixelThresholds_accelerationPlane (container : Area) (axis : Axis) :
    (getPixelThresholds container axis).accelerationPlane =
      (getPixelThresholds container axis).startFrom -
        (getPixelThresholds container axis).maxSpeedAt := rfl

/-- A container of positive size has a positive acceleration plane. -/
theorem getPixelThresholds_pos (container : Area) (axis : Axis)
    (hsize : 0 < axis.size container) :
    (getPixelThresholds container axis).maxSpeedAt <
        (getPixelThresholds container axis).startFrom ∧
      0 < (getPixelThresholds container axis).accelerationPlane := by
  simp only [getPixelThresholds, config]
  constructor <;> nlinarith

/-- A fixed example viewport, 1000 wide and 800 high. -/
def exViewport : Area :=
  { top := 0, right := 1000, bottom := 800, left := 0, width := 1000, height := 800 }

/-- C2: with thresholds derived from a container of positive size
(startFrom = size × 0.25, maxSpeedAt = size × 0.05), getSpeed is 0 at or
beyond startFrom, the configured maximum 28 at or below maxSpeedAt, and
strictly between those thresholds it is 28 × ease((startFrom − d) /
accelerationPlane) with the quadratic ease, strictly between 0 and 28. -/
theorem getSpeed_piecewise (container : Area) (axis : Axis) (d : ℚ)
    (hsize : 0 < axis.size container) :
    ((getPixelThresholds container axis).startFrom ≤ d →
      getSpeed d (getPixelThresholds container axis) = 0) ∧
    (d ≤ (getPixelThresholds container axis).maxSpeedAt →
      getSpeed d (getPixelThresholds container axis) = 28) ∧
    ((getPixelThresholds container axis).maxSpeedAt < d →
     d < (getPixelThresholds container axis).startFrom →
      getSpeed d (getPixelThresholds container axis) =
        28 * config.ease (((getPixelThresholds container axis).startFrom - d) /
          (getPixelThresholds container axis).accelerationPlane) ∧
      0 < getSpeed d (getPixelThresholds container axis) ∧
      getSpeed d (getPixelThresholds container axis) < 28) := by
  obtain ⟨hms, hap⟩ := getPixelThresholds_pos container axis hsize
  set t := getPixelThresholds container axis with ht
  have hdef : t.accelerationPlane = t.startFrom - t.maxSpeedAt :=
    getPixelThresholds_accelerationPlane container axis
  refine ⟨fun h => ?_, fun h => ?_, fun h1 h2 => ?_⟩
  · rw [getSpeed_def, if_pos h]
  · rw [getSpeed_def, if_neg (by linarith), if_pos h]
  · have hval : getSpeed d t = 28 * ((t.startFrom - d) / t.accelerationPlane) ^ 2 := by
      rw [getSpeed_def, if_neg (by linarith), if_neg (by linarith)]
    have hp0 : 0 < (t.startFrom - d) / t.accelerationPlane :=
      div_pos (by linarith) hap
    have hp1 : (t.startFrom - d) / t.accelerationPlane < 1 :=
      (div_lt_one hap).2 (by linarith)
    have hsq : ((t.startFrom - d) / t.accelerationPlane) ^ 2 < 1 :=
      pow_lt_one₀ hp0.le hp1 (by norm_num)
    have hsq0 : 0 < ((t.startFrom - d) / t.accelerationPlane) ^ 2 := pow_pos hp0 2
    refine ⟨hval, by rw [hval]; linarith, by rw [hval]; linarith⟩

/-- Witness for C2 at a container of height 800: startFrom = 200,
maxSpeedAt = 40, and at distance 100 the speed is 28 × (100/160)² =
175/16, strictly between 0 and 28. -/
theorem getSpeed_piecewise_witness :
    0 < vertical.size exViewport ∧
    (getPixelThresholds exViewport vertical).maxSpeedAt < 100 ∧
    (100 : ℚ) < (getPixelThresholds exViewport vertical).startFrom ∧
    getSpeed 100 (getPixelThresholds exViewport vertical) = 175 / 16 ∧
    0 < getSpeed 100 (getPixelThresholds exViewport vertical) ∧
    getSpeed 100 (getPixelThresholds exViewport vertical) < 28 := by
  have h := (getSpeed_piecewise exViewport vertical 100
      (by norm_num [vertical, exViewport])).2.2
    (by norm_num [getPixelThresholds, config, vertical, exViewport])
    (by norm_num [getPixelThresholds, config, vertical, exViewport])
  refine ⟨by norm_num [vertical, exViewport],
    by norm_num [getPixelThresholds, config, vertical, exViewport],
    by norm_num [getPixelThresholds, config, vertical, exViewport], ?_, h.2.1, h.2.2⟩
  rw [h.1]
  norm_num [getPixelThresholds, config, vertical, exViewport]

/-- C3 counterexample: for the raw thresholds value
{startFrom := 20, maxSpeedAt := 10, accelerationPlane := 1} — which has a
positive acceleration plane but does not arise from getPixelThresholds —
the speed increases from 28 at distance 10 to 2268 at distance 11, so
getSpeed is not monotonically non-increasing over every thresholds value
with accelerationPlane > 0. -/
theorem getSpeed_antitone_counterexample :
    0 < (PixelThresholds.mk 20 10 1).accelerationPlane ∧
    (10 : ℚ) ≤ 11 ∧
    getSpeed 10 (PixelThresholds.mk 20 10 1) = 28 ∧
    getSpeed 11 (PixelThresholds.mk 20 10 1) = 2268 ∧
    ¬ getSpeed 11 (PixelThresholds.mk 20 10 1) ≤ getSpeed 10 (PixelThresholds.mk 20 10 1) := by
  refine ⟨by norm_num, by norm_num, ?_, ?_, ?_⟩ <;>
    norm_num [getSpeed_def]

/-- C3 (amended): for every thresholds value whose acceleration plane is
positive and consistent with its distance thresholds (accelerationPlane =
startFrom − maxSpeedAt, as every value produced by getPixelThresholds is),
getSpeed with the default quadratic ease is monotonically non-increasing
in the distance argument. -/
theorem getSpeed_antitone (t : PixelThresholds)
    (hdef : t.accelerationPlane = t.startFrom - t.maxSpeedAt)
    (hap : 0 < t.accelerationPlane)
    (d1 d2 : ℚ) (h : d1 ≤ d2) :
    getSpeed d2 t ≤ getSpeed d1 t := by
  have hms : t.maxSpeedAt < t.startFrom := by linarith
  rw [getSpeed_def, getSpeed_def]
  split_ifs with a1 a2 b1 b2 b1 b2
  · exact le_refl 0
  · norm_num
  · positivity
  · linarith
  · exact le_refl 28
  · linarith
  · linarith
  · have hp0 : 0 ≤ (t.startFrom - d2) / t.accelerationPlane :=
      (div_nonneg (by linarith) hap.le)
    have hp1 : (t.startFrom - d2) / t.accelerationPlane < 1 :=
      (div_lt_one hap).2 (by linarith)
    have := pow_lt_one₀ hp0 hp1 (two_ne_zero)
    linarith
  · have hp2 : 0 ≤ (t.startFrom - d2) / t.accelerationPlane :=
      div_nonneg (by linarith) hap.le
    have hle : (t.startFrom - d2) / t.accelerationPlane ≤
        (t.startFrom - d1) / t.accelerationPlane :=
      div_le_div_of_nonneg_right (by linarith) hap.le
    have := pow_le_pow_left₀ hp2 hle 2
    linarith

/-- Witness for C3 (amended) at the thresholds of a height-800 container:
the speed at distance 150 does not exceed the speed at distance 50. -/
theorem getSpeed_antitone_witness :
    (getPixelThresholds exViewport vertical).accelerationPlane =
        (getPixelThresholds exViewport vertical).startFrom -
          (getPixelThresholds exViewport vertical).maxSpeedAt ∧
      0 < (getPixelThresholds exViewport vertical).accelerationPlane ∧
      (50 : ℚ) ≤ 150 ∧
      getSpeed 150 (getPixelThresholds exViewport vertical) ≤
        getSpeed 50 (getPixelThresholds exViewport vertical) :=
  ⟨rfl, by norm_num [getPixelThresholds, config, vertical, exViewport], by norm_num,
    getSpeed_antitone (getPixelThresholds exViewport vertical) rfl
      (by norm_num [getPixelThresholds, config, vertical, exViewport]) 50 150 (by norm_num)⟩

/-- A let-free normal form of getRequiredScroll: the x and y components,
each an if over the strict nearer-edge comparison, and none exactly when
both components are zero. -/
theorem getRequiredScroll_eq (container : Area) (center : Position) :
    getRequiredScroll container center =
      if (if container.right - center.x < center.x - container.left
          then getSpeed (container.right - center.x) (getPixelThresholds container horizontal)
          else -1 * getSpeed (center.x - container.left) (getPixelThresholds container horizontal)) = 0 ∧
         (if container.bottom - center.y < center.y - container.top
          then getSpeed (container.bottom - center.y) (getPixelThresholds container vertical)
          else -1 * getSpeed (center.y - container.top) (getPixelThresholds container vertical)) = 0
      then none
      else some
        { x := if container.right - center.x < center.x - container.left
               then getSpeed (container.right - center.x) (getPixelThresholds container horizontal)
               else -1 * getSpeed (center.x - container.left) (getPixelThresholds container horizontal),
          y := if container.bottom - center.y < center.y - container.top
               then getSpeed (container.bottom - center.y) (getPixelThresholds container vertical)
               else -1 * getSpeed (center.y - container.top) (getPixelThresholds container vertical) } := by
  simp only [getRequiredScroll, isEqual, origin, Bool.and_eq_true, decide_eq_true_eq]

/-- The y component of a returned scroll vector, read off the solver. -/
theorem getRequiredScroll_some_y (container : Area) (center : Position) (v : Position)
    (hv : getRequiredScroll container center = some v) :
    v.y = if container.bottom - center.y < center.y - container.top
          then getSpeed (container.bottom - center.y) (getPixelThresholds container vertical)
          else -1 * getSpeed (center.y - container.top) (getPixelThresholds container vertical) := by
  rw [getRequiredScroll_eq] at hv
  by_cases hb : container.bottom - center.y < center.y - container.top <;>
    by_cases hr : container.right - center.x < center.x - container.left <;>
    simp only [hb, hr, ite_true, ite_false] at hv ⊢ <;>
    split_ifs at hv with h <;>
    first
    | exact Option.noConfusion hv
    | (have h2 := Option.some.inj hv; subst h2; rfl)

/-- The x component of a returned scroll vector, read off the solver. -/
theorem getRequiredScroll_some_x (container : Area) (center : Position) (v : Position)
    (hv : getRequiredScroll container center = some v) :
    v.x = if container.right - center.x < center.x - container.left
          then getSpeed (container.right - center.x) (getPixelThresholds container horizontal)
          else -1 * getSpeed (center.x - container.left) (getPixelThresholds container horizontal) := by
  rw [getRequiredScroll_eq] at hv
  by_cases hb : container.bottom - center.y < center.y - container.top <;>
    by_cases hr : container.right - center.x < center.x - container.left <;>
    simp only [hb, hr, ite_true, ite_false] at hv ⊢ <;>
    split_ifs at hv with h <;>
    first
    | exact Option.noConfusion hv
    | (have h2 := Option.some.inj hv; subst h2; rfl)

/-- C1: the required-scroll solver returns none exactly when the speed at
the nearer edge is zero on both axes; otherwise the returned vector
carries, on each axis, the speed of the nearer edge's distance, positive
when strictly nearer the bottom/right edge and negated (hence
non-positive) when nearer the top/left edge. -/
theorem getRequiredScroll_none_iff_speeds (container : Area) (center : Position) :
    (getRequiredScroll container center = none ↔
      getSpeed (if container.bottom - center.y < center.y - container.top
                then container.bottom - center.y else center.y - container.top)
          (getPixelThresholds container vertical) = 0 ∧
      getSpeed (if container.right - center.x < center.x - container.left
                then container.right - center.x else center.x - container.left)
          (getPixelThresholds container horizontal) = 0) ∧
    ∀ v : Position, getRequiredScroll container center = some v →
      ((container.bottom - center.y < center.y - container.top →
          v.y = getSpeed (container.bottom - center.y) (getPixelThresholds container vertical) ∧
          0 ≤ v.y) ∧
       (¬ container.bottom - center.y < center.y - container.top →
          v.y = -(getSpeed (center.y - container.top) (getPixelThresholds container vertical)) ∧
          v.y ≤ 0) ∧
       (container.right - center.x < center.x - container.left →
          v.x = getSpeed (container.right - center.x) (getPixelThresholds container horizontal) ∧
          0 ≤ v.x) ∧
       (¬ container.right - center.x < center.x - container.left →
          v.x = -(getSpeed (center.x - container.left) (getPixelThresholds container horizontal)) ∧
          v.x ≤ 0)) := by
  constructor
  · rw [getRequiredScroll_eq]
    by_cases hb : container.bottom - center.y < center.y - container.top <;>
      by_cases hr : container.right - center.x < center.x - container.left <;>
      simp only [hb, hr, ite_true, ite_false, neg_one_mul, neg_eq_zero] <;>
      split_ifs with h <;>
      first
      | exact iff_of_true rfl ⟨h.2, h.1⟩
      | exact iff_of_false (by simp) fun hc => h ⟨hc.2, hc.1⟩
  · intro v hv
    have hy := getRequiredScroll_some_y container center v hv
    have hx := getRequiredScroll_some_x container center v hv
    have nB := getSpeed_nonneg (container.bottom - center.y) (getPixelThresholds container vertical)
    have nT := getSpeed_nonneg (center.y - container.top) (getPixelThresholds container vertical)
    have nR := getSpeed_nonneg (container.right - center.x) (getPixelThresholds container horizontal)
    have nL := getSpeed_nonneg (center.x - container.left) (getPixelThresholds container horizontal)
    refine ⟨fun hb => ?_, fun hb => ?_, fun hr => ?_, fun hr => ?_⟩
    · rw [if_pos hb] at hy
      exact ⟨hy, hy ▸ nB⟩
    · rw [if_neg hb] at hy
      refine ⟨by rw [hy]; ring, by rw [hy]; linarith⟩
    · rw [if_pos hr] at hx
      exact ⟨hx, hx ▸ nR⟩
    · rw [if_neg hr] at hx
      refine ⟨by rw [hx]; ring, by rw [hx]; linarith⟩

/-- Witness for C1 at the spec's worked example: viewport 1000 × 800 and
center (500, 790) produce the scroll vector (0, 28), whose y component is
the speed of the nearer bottom edge and whose x component is the negated
speed of the left edge under the tie. -/
theorem getRequiredScroll_none_iff_speeds_witness :
    getRequiredScroll exViewport { x := 500, y := 790 } = some { x := 0, y := 28 } ∧
    (Position.mk 0 28).y =
      getSpeed (exViewport.bottom - (790 : ℚ))
        (getPixelThresholds exViewport vertical) ∧
    (0 : ℚ) ≤ (Position.mk 0 28).y := by
  have hv : getRequiredScroll exViewport { x := 500, y := 790 } = some { x := 0, y := 28 } := by
    norm_num [getRequiredScroll, getPixelThresholds, getSpeed, isEqual, origin, vertical,
      horizontal, config, exViewport]
  have h := ((getRequiredScroll_none_iff_speeds exViewport { x := 500, y := 790 }).2
      { x := 0, y := 28 } hv).1 (by norm_num [exViewport])
  exact ⟨hv, h.1, h.2⟩

/-- C10: when the drag center is exactly equidistant from the top and
bottom edges (respectively the left and right edges), the solver treats it
as closer to the top (respectively left) edge, so any returned vector has
a non-positive component on that axis. -/
theorem getRequiredScroll_tie_nonpos (container : Area) (center : Position) :
    ((container.bottom - center.y = center.y - container.top) →
      ∀ v : Position, getRequiredScroll container center = some v →
        v.y = -1 * getSpeed (center.y - container.top) (getPixelThresholds container vertical) ∧
        v.y ≤ 0) ∧
    ((container.right - center.x = center.x - container.left) →
      ∀ v : Position, getRequiredScroll container center = some v →
        v.x = -1 * getSpeed (center.x - container.left) (getPixelThresholds container horizontal) ∧
        v.x ≤ 0) := by
  constructor
  · intro htie v hv
    have hy := getRequiredScroll_some_y container center v hv
    rw [if_neg (by rw [htie]; exact lt_irrefl _)] at hy
    have := getSpeed_nonneg (center.y - container.top) (getPixelThresholds container vertical)
    exact ⟨hy, by rw [hy]; linarith⟩
  · intro htie v hv
    have hx := getRequiredScroll_some_x container center v hv
    rw [if_neg (by rw [htie]; exact lt_irrefl _)] at hx
    have := getSpeed_nonneg (center.x - container.left) (getPixelThresholds container horizontal)
    exact ⟨hx, by rw [hx]; linarith⟩

/-- Witness for C10: with the 1000 × 800 viewport and center (990, 400)
the center is equidistant from top and bottom, the solver returns (28, 0),
and the y component is non-positive. -/
theorem getRequiredScroll_tie_nonpos_witness :
    exViewport.bottom - (400 : ℚ) = 400 - exViewport.top ∧
    getRequiredScroll exViewport { x := 990, y := 400 } = some { x := 28, y := 0 } ∧
    (Position.mk 28 0).y ≤ 0 := by
  have hv : getRequiredScroll exViewport { x := 990, y := 400 } = some { x := 28, y := 0 } := by
    norm_num [getRequiredScroll, getPixelThresholds, getSpeed, isEqual, origin, vertical,
      horizontal, config, exViewport]
  refine ⟨by norm_num [exViewport], hv, ?_⟩
  exact ((getRequiredScroll_tie_nonpos exViewport { x := 990, y := 400 }).1
    (by norm_num [exViewport]) { x := 28, y := 0 } hv).2

/-! Concrete fixtures reused by the witnesses. -/

/-- A 100 × 100 dragged item. -/
def exDraggable : DraggableDimension :=
  { page := { withMargin := { top := 0, right := 100, bottom := 100, left := 0, width := 100, height := 100 } } }

/-- A dragged item 1200 wide, wider than the 1000-wide viewport. -/
def exBigDraggable : DraggableDimension :=
  { page := { withMargin := { top := 0, right := 1200, bottom := 500, left := 0, width := 1200, height := 500 } } }

/-- A 300 × 400 scrollable frame. -/
def exFrame : Area :=
  { top := 0, right := 300, bottom := 400, left := 0, width := 300, height := 400 }

/-- A droppable with a closest scrollable ancestor of frame exFrame. -/
def exDroppable : DroppableDimension :=
  { descriptorId := "drop-1", viewport := { closestScrollable := some { frame := exFrame } } }

/-- A dimension registry mapping every id to the example dimensions. -/
def exDimension : DimensionState :=
  { draggable := fun _ => exDraggable, droppable := fun _ => exDroppable }

/-- A dimension registry whose dragged item is the oversized one. -/
def exDimensionBig : DimensionState :=
  { draggable := fun _ => exBigDraggable, droppable := fun _ => exDroppable }

/-- A baseline environment: window cannot scroll, droppables can, no
overlap, and the spatial lookup always finds exDroppable. -/
def exEnv : Env :=
  { getViewport := exViewport
    getWindowScrollPosition := { x := 0, y := 0 }
    canScrollWindow := fun _ => false
    canScrollDroppable := fun _ _ => true
    getWindowOverlap := fun _ => none
    getDroppableOverlap := fun _ _ => none
    getScrollableDroppableOver := fun _ _ => some exDroppable }

/-- The baseline environment with a scrollable window instead. -/
def exEnvWin : Env :=
  { exEnv with canScrollWindow := fun _ => true }

/-- The baseline environment with a droppable overlap of (0, 5). -/
def exEnvOverlap : Env :=
  { exEnv with getDroppableOverlap := fun _ _ => some { x := 0, y := 5 } }

/-- A fluid-mode drag whose center is 10 px from the viewport bottom. -/
def exDragFluid : DragState :=
  { initial := { descriptorId := "drag-1", autoScrollMode := "FLUID" }
    current := { pageCenter := { x := 500, y := 790 }, clientSelection := { x := 20, y := 30 } }
    scrollJumpRequest := none
    impactDestination := none }

/-- A jump-mode drag requesting a (0, 50) scroll into drop-1. -/
def exDragJump : DragState :=
  { initial := { descriptorId := "drag-1", autoScrollMode := "JUMP" }
    current := { pageCenter := { x := 500, y := 790 }, clientSelection := { x := 20, y := 30 } }
    scrollJumpRequest := some { x := 0, y := 50 }
    impactDestination := some { droppableId := "drop-1", index := 0 } }

/-- A dragging-phase state around the fluid example drag. -/
def exStateFluid : State :=
  { phase := "DRAGGING", drag := some exDragFluid, dimension := exDimension }

/-- A dragging-phase state around the jump example drag. -/
def exStateJump : State :=
  { phase := "DRAGGING", drag := some exDragJump, dimension := exDimension }

/-- The jump example state with the oversized dragged item. -/
def exStateJumpBig : State :=
  { phase := "DRAGGING", drag := some exDragJump, dimension := exDimensionBig }

/-- The fluid example state with the oversized dragged item. -/
def exStateFluidBig : State :=
  { phase := "DRAGGING", drag := some exDragFluid, dimension := exDimensionBig }

/-! Helper lemmas about the shapes of the fluid traces. -/

/-- The droppable half of the fluid path emits either nothing or a single
scheduled droppable scroll. -/
theorem fluidDroppableScroll_cases (env : Env) (state : State) (drag : DragState)
    (draggable : DraggableDimension) :
    fluidDroppableScroll env state drag draggable = [] ∨
    ∃ id change, fluidDroppableScroll env state drag draggable =
      [Effect.scheduleDroppableScroll id change] := by
  unfold fluidDroppableScroll
  rcases env.getScrollableDroppableOver drag.current.pageCenter state.dimension.droppable with
    _ | droppable
  · exact Or.inl rfl
  dsimp only
  rcases droppable.viewport.closestScrollable with _ | closestScrollable
  · exact Or.inl rfl
  dsimp only
  split_ifs with h1
  · exact Or.inl rfl
  rcases getRequiredScroll closestScrollable.frame drag.current.pageCenter with _ | required
  · exact Or.inl rfl
  dsimp only
  split_ifs with h2
  · exact Or.inr ⟨_, _, rfl⟩
  · exact Or.inl rfl

/-- The fluid path emits one of: an error log, nothing, a single scheduled
window scroll, or a single scheduled droppable scroll. -/
theorem fluidScroll_cases (env : Env) (state : State) :
    fluidScroll env state = [Effect.logError "Invalid drag state"] ∨
    fluidScroll env state = [] ∨
    (∃ w, fluidScroll env state = [Effect.scheduleWindowScroll w]) ∨
    (∃ id change, fluidScroll env state = [Effect.scheduleDroppableScroll id change]) := by
  unfold fluidScroll
  rcases state.drag with _ | drag
  · exact Or.inl rfl
  dsimp only
  split_ifs with h1
  · exact Or.inr (Or.inl rfl)
  rcases getRequiredScroll env.getViewport drag.current.pageCenter with _ | required
  · rcases fluidDroppableScroll_cases env state drag
        (state.dimension.draggable drag.initial.descriptorId) with h | ⟨id, change, h⟩
    · exact Or.inr (Or.inl h)
    · exact Or.inr (Or.inr (Or.inr ⟨id, change, h⟩))
  dsimp only
  split_ifs with h2
  · exact Or.inr (Or.inr (Or.inl ⟨_, rfl⟩))
  · rcases fluidDroppableScroll_cases env state drag
        (state.dimension.draggable drag.initial.descriptorId) with h | ⟨id, change, h⟩
    · exact Or.inr (Or.inl h)
    · exact Or.inr (Or.inr (Or.inr ⟨id, change, h⟩))

/-- C5: in every fluid invocation the window is tried first: when a
required window scroll exists and the window can absorb it, the invocation
schedules exactly that window scroll and nothing else; and a scheduled
droppable scroll and a scheduled window scroll never occur in the same
invocation, so a droppable scroll is only scheduled when no window scroll
was. -/
theorem fluidScroll_window_priority (env : Env) (state : State) :
    (∀ drag, state.drag = some drag →
      isTooBigForAutoScrolling env.getViewport
        (state.dimension.draggable drag.initial.descriptorId).page.withMargin = false →
      ∀ w, getRequiredScroll env.getViewport drag.current.pageCenter = some w →
        env.canScrollWindow w = true →
        fluidScroll env state = [Effect.scheduleWindowScroll w]) ∧
    (∀ id change, Effect.scheduleDroppableScroll id change ∈ fluidScroll env state →
      ∀ w, Effect.scheduleWindowScroll w ∉ fluidScroll env state) := by
  constructor
  · intro drag hdrag hbig w hw hcan
    simp [fluidScroll, hdrag, hbig, hw, hcan]
  · intro id change hmem w
    rcases fluidScroll_cases env state with h | h | ⟨w2, h⟩ | ⟨id2, change2, h⟩ <;>
      rw [h] at hmem ⊢ <;> simp_all

/-- Witness for C5: in the fluid example state with a scrollable window,
the invocation schedules exactly the window scroll (0, 28). -/
theorem fluidScroll_window_priority_witness :
    exStateFluid.drag = some exDragFluid ∧
    fluidScroll exEnvWin exStateFluid = [Effect.scheduleWindowScroll { x := 0, y := 28 }] := by
  refine ⟨rfl, ?_⟩
  exact (fluidScroll_window_priority exEnvWin exStateFluid).1 exDragFluid rfl
    (by norm_num [isTooBigForAutoScrolling, exEnvWin, exEnv, exViewport, exStateFluid,
      exDimension, exDraggable])
    { x := 0, y := 28 }
    (by norm_num [getRequiredScroll, getPixelThresholds, getSpeed, isEqual, origin, vertical,
      horizontal, config, exEnvWin, exEnv, exViewport, exDragFluid])
    rfl

/-- C6: when the dragged item (with margin) is larger than the viewport in
either dimension, the fluid invocation returns before computing any
required scroll: the emitted trace is empty, so nothing is scheduled on
either target. -/
theorem fluidScroll_tooBig_noop (env : Env) (state : State) (drag : DragState)
    (hdrag : state.drag = some drag)
    (hbig : isTooBigForAutoScrolling env.getViewport
      (state.dimension.draggable drag.initial.descriptorId).page.withMargin = true) :
    fluidScroll env state = [] := by
  simp [fluidScroll, hdrag, hbig]

/-- Witness for C6: a drag item of width 1200 against the width-1000
viewport produces an empty fluid trace. -/
theorem fluidScroll_tooBig_noop_witness :
    exStateFluidBig.drag = some exDragFluid ∧
    isTooBigForAutoScrolling exEnv.getViewport
      (exStateFluidBig.dimension.draggable "drag-1").page.withMargin = true ∧
    fluidScroll exEnv exStateFluidBig = [] := by
  refine ⟨rfl, ?_, ?_⟩
  · norm_num [isTooBigForAutoScrolling, exEnv, exViewport, exStateFluidBig, exDimensionBig,
      exBigDraggable]
  · exact fluidScroll_tooBig_noop exEnv exStateFluidBig exDragFluid rfl
      (by norm_num [isTooBigForAutoScrolling, exEnv, exViewport, exStateFluidBig,
        exDimensionBig, exBigDraggable, exDragFluid])

/-- C4: in jump mode, when the destination droppable's closest scrollable
ancestor is not smaller than the dragged item, the droppable can absorb the
requested delta and the window cannot scroll, the invocation performs the
droppable scroll immediately (Effect.scrollDroppable, not the scheduled
variant); the compensating move, when the droppable-overlap oracle returns
one, is exactly by that overlap, and when the oracle returns none there is
no move call at all. -/
theorem jumpScroll_droppable_roundtrip (env : Env) (state : State) (drag : DragState)
    (request : Position) (destination : DraggableLocation) (cs : ClosestScrollable)
    (hdrag : state.drag = some drag)
    (hreq : drag.scrollJumpRequest = some request)
    (hdest : drag.impactDestination = some destination)
    (hcs : (state.dimension.droppable destination.droppableId).viewport.closestScrollable = some cs)
    (hbig : isTooBigForAutoScrolling cs.frame
      (state.dimension.draggable drag.initial.descriptorId).page.withMargin = false)
    (hcan : env.canScrollDroppable (state.dimension.droppable destination.droppableId) request = true)
    (hwin : env.canScrollWindow request = false) :
    (env.getDroppableOverlap (state.dimension.droppable destination.droppableId) request = none →
      jumpScroll env state =
        [Effect.scrollDroppable
          (state.dimension.droppable destination.droppableId).descriptorId request]) ∧
    (∀ overlap,
      env.getDroppableOverlap (state.dimension.droppable destination.droppableId) request =
          some overlap →
      jumpScroll env state =
        [Effect.logWarn "DROPPABLE OVERLAP",
         Effect.move drag.initial.descriptorId (add drag.current.clientSelection overlap)
           env.getWindowScrollPosition true,
         Effect.scrollDroppable
           (state.dimension.droppable destination.droppableId).descriptorId request]) := by
  constructor
  · intro hov
    simp [jumpScroll, performMove, hdrag, hreq, hdest, hcs, hbig, hcan, hwin, hov]
  · intro overlap hov
    simp [jumpScroll, performMove, hdrag, hreq, hdest, hcs, hbig, hcan, hwin, hov]

/-- Witness for C4: in the jump example state, with no overlap the trace is
exactly the synchronous droppable scroll; with an overlap of (0, 5) the
item is moved by exactly that overlap before the same scroll. -/
theorem jumpScroll_droppable_roundtrip_witness :
    jumpScroll exEnv exStateJump =
      [Effect.scrollDroppable "drop-1" { x := 0, y := 50 }] ∧
    jumpScroll exEnvOverlap exStateJump =
      [Effect.logWarn "DROPPABLE OVERLAP",
       Effect.move "drag-1" (add { x := 20, y := 30 } { x := 0, y := 5 })
         { x := 0, y := 0 } true,
       Effect.scrollDroppable "drop-1" { x := 0, y := 50 }] := by
  constructor
  · exact (jumpScroll_droppable_roundtrip exEnv exStateJump exDragJump
      { x := 0, y := 50 } { droppableId := "drop-1", index := 0 } { frame := exFrame }
      rfl rfl rfl rfl
      (by norm_num [isTooBigForAutoScrolling, exFrame, exStateJump, exDimension, exDraggable])
      rfl rfl).1 rfl
  · exact (jumpScroll_droppable_roundtrip exEnvOverlap exStateJump exDragJump
      { x := 0, y := 50 } { droppableId := "drop-1", index := 0 } { frame := exFrame }
      rfl rfl rfl rfl
      (by norm_num [isTooBigForAutoScrolling, exFrame, exStateJump, exDimension, exDraggable])
      rfl rfl).2 { x := 0, y := 5 } rfl

/-- The droppable half of the fluid path emits nothing when the dragged
item is too big for the found droppable's scrollable frame. -/
theorem fluidDroppableScroll_tooBig (env : Env) (state : State) (drag : DragState)
    (draggable : DraggableDimension) (droppable : DroppableDimension) (cs : ClosestScrollable)
    (hor : env.getScrollableDroppableOver drag.current.pageCenter state.dimension.droppable =
      some droppable)
    (hcs : droppable.viewport.closestScrollable = some cs)
    (hbig : isTooBigForAutoScrolling cs.frame draggable.page.withMargin = true) :
    fluidDroppableScroll env state drag draggable = [] := by
  simp [fluidDroppableScroll, hor, hcs, hbig]

/-- C7: isTooBigForAutoScrolling is true exactly when the subject exceeds
the frame's width or height; whenever it is true for the relevant pair,
scrolling of that target is suppressed in the fluid path (no scheduled
call) and in the jump path, which instead moves the dragged item by the
full requested delta. -/
theorem isTooBigForAutoScrolling_spec :
    (∀ frame subject : Area,
      isTooBigForAutoScrolling frame subject = true ↔
        (frame.width < subject.width ∨ frame.height < subject.height)) ∧
    (∀ (env : Env) (state : State) (drag : DragState), state.drag = some drag →
      isTooBigForAutoScrolling env.getViewport
        (state.dimension.draggable drag.initial.descriptorId).page.withMargin = true →
      fluidScroll env state = []) ∧
    (∀ (env : Env) (state : State) (drag : DragState) (droppable : DroppableDimension)
        (cs : ClosestScrollable), state.drag = some drag →
      env.getScrollableDroppableOver drag.current.pageCenter state.dimension.droppable =
        some droppable →
      droppable.viewport.closestScrollable = some cs →
      isTooBigForAutoScrolling cs.frame
        (state.dimension.draggable drag.initial.descriptorId).page.withMargin = true →
      ∀ id change, Effect.scheduleDroppableScroll id change ∉ fluidScroll env state) ∧
    (∀ (env : Env) (state : State) (drag : DragState) (request : Position)
        (destination : DraggableLocation) (cs : ClosestScrollable), state.drag = some drag →
      drag.scrollJumpRequest = some request →
      drag.impactDestination = some destination →
      (state.dimension.droppable destination.droppableId).viewport.closestScrollable = some cs →
      isTooBigForAutoScrolling cs.frame
        (state.dimension.draggable drag.initial.descriptorId).page.withMargin = true →
      jumpScroll env state =
        [Effect.move drag.initial.descriptorId (add drag.current.clientSelection request)
          env.getWindowScrollPosition true]) ∧
    (∀ (env : Env) (state : State) (drag : DragState) (request : Position)
        (destination : DraggableLocation), state.drag = some drag →
      drag.scrollJumpRequest = some request →
      drag.impactDestination = some destination →
      ((state.dimension.droppable destination.droppableId).viewport.closestScrollable = none ∨
        ∃ cs,
          (state.dimension.droppable destination.droppableId).viewport.closestScrollable =
              some cs ∧
          isTooBigForAutoScrolling cs.frame
            (state.dimension.draggable drag.initial.descriptorId).page.withMargin = false ∧
          env.canScrollDroppable (state.dimension.droppable destination.droppableId) request =
            false) →
      isTooBigForAutoScrolling env.getViewport
        (state.dimension.draggable drag.initial.descriptorId).page.withMargin = true →
      jumpScroll env state =
        [Effect.move drag.initial.descriptorId (add drag.current.clientSelection request)
          env.getWindowScrollPosition true]) := by
  refine ⟨?_, ?_, ?_, ?_, ?_⟩
  · intro frame subject
    simp [isTooBigForAutoScrolling, Bool.or_eq_true, decide_eq_true_eq, gt_iff_lt]
  · intro env state drag hdrag hbig
    simp [fluidScroll, hdrag, hbig]
  · intro env state drag droppable cs hdrag hor hcs hbig id change hmem
    have hnil := fluidDroppableScroll_tooBig env state drag
      (state.dimension.draggable drag.initial.descriptorId) droppable cs hor hcs hbig
    by_cases hbigv : isTooBigForAutoScrolling env.getViewport
        (state.dimension.draggable drag.initial.descriptorId).page.withMargin = true
    · simp [fluidScroll, hdrag, hbigv] at hmem
    · rcases hw : getRequiredScroll env.getViewport drag.current.pageCenter with _ | w
      · simp [fluidScroll, hdrag, hbigv, hw, hnil] at hmem
      · by_cases hcw : env.canScrollWindow w = true
        · simp [fluidScroll, hdrag, hbigv, hw, hcw] at hmem
        · simp [fluidScroll, hdrag, hbigv, hw, hcw, hnil] at hmem
  · intro env state drag request destination cs hdrag hreq hdest hcs hbig
    simp [jumpScroll, performMove, hdrag, hreq, hdest, hcs, hbig]
  · intro env state drag request destination hdrag hreq hdest hroute hbig
    rcases hroute with hcs | ⟨cs, hcs, hcsbig, hcan⟩
    · simp [jumpScroll, jumpScrollWindow, performMove, hdrag, hreq, hdest, hcs, hbig]
    · simp [jumpScroll, jumpScrollWindow, performMove, hdrag, hreq, hdest, hcs, hcsbig,
        hcan, hbig]

/-- A 2000 × 600 scrollable frame, larger than the oversized item. -/
def exWideFrame : Area :=
  { top := 0, right := 2000, bottom := 600, left := 0, width := 2000, height := 600 }

/-- A droppable whose closest scrollable ancestor has the wide frame. -/
def exWideDroppable : DroppableDimension :=
  { descriptorId := "drop-2", viewport := { closestScrollable := some { frame := exWideFrame } } }

/-- A registry pairing the oversized item with the wide droppable. -/
def exDimensionWide : DimensionState :=
  { draggable := fun _ => exBigDraggable, droppable := fun _ => exWideDroppable }

/-- The jump example state over the wide droppable and oversized item. -/
def exStateJumpWide : State :=
  { phase := "DRAGGING", drag := some exDragJump, dimension := exDimensionWide }

/-- The baseline environment where no droppable can scroll. -/
def exEnvNoDroppable : Env :=
  { exEnv with canScrollDroppable := fun _ _ => false }

/-- Witness for C7: the 1200-wide item exceeds the 300-wide frame, so the
jump path with that destination moves the item by the full request instead
of scrolling; and on the fall-through route — an ancestor frame large
enough for the item but a droppable that declines the scroll — the item
too big for the viewport is likewise moved by the full request. -/
theorem isTooBigForAutoScrolling_spec_witness :
    (isTooBigForAutoScrolling exFrame exBigDraggable.page.withMargin = true ↔
      (exFrame.width < exBigDraggable.page.withMargin.width ∨
        exFrame.height < exBigDraggable.page.withMargin.height)) ∧
    isTooBigForAutoScrolling exFrame exBigDraggable.page.withMargin = true ∧
    jumpScroll exEnv exStateJumpBig =
      [Effect.move "drag-1" (add { x := 20, y := 30 } { x := 0, y := 50 })
        { x := 0, y := 0 } true] ∧
    jumpScroll exEnvNoDroppable exStateJumpWide =
      [Effect.move "drag-1" (add { x := 20, y := 30 } { x := 0, y := 50 })
        { x := 0, y := 0 } true] := by
  refine ⟨isTooBigForAutoScrolling_spec.1 exFrame exBigDraggable.page.withMargin, ?_, ?_, ?_⟩
  · norm_num [isTooBigForAutoScrolling, exFrame, exBigDraggable]
  · exact isTooBigForAutoScrolling_spec.2.2.2.1 exEnv exStateJumpBig exDragJump
      { x := 0, y := 50 } { droppableId := "drop-1", index := 0 } { frame := exFrame }
      rfl rfl rfl rfl
      (by norm_num [isTooBigForAutoScrolling, exFrame, exStateJumpBig, exDimensionBig,
        exBigDraggable])
  · exact isTooBigForAutoScrolling_spec.2.2.2.2 exEnvNoDroppable exStateJumpWide exDragJump
      { x := 0, y := 50 } { droppableId := "drop-1", index := 0 }
      rfl rfl rfl
      (Or.inr ⟨{ frame := exWideFrame }, rfl,
        by norm_num [isTooBigForAutoScrolling, exWideFrame, exStateJumpWide, exDimensionWide,
          exBigDraggable],
        rfl⟩)
      (by norm_num [isTooBigForAutoScrolling, exEnvNoDroppable, exEnv, exViewport,
        exStateJumpWide, exDimensionWide, exBigDraggable])

/-- C8: on any transition that leaves the dragging phase, the marshal
cancels both scheduler slots: whatever was pending beforehand, both slots
are empty afterwards and the next frame flush invokes no scroll
primitive. -/
theorem onStateChange_leaving_cancels (env : Env) (previous current : State)
    (s : ScheduledScrolls)
    (hprev : previous.phase = "DRAGGING") (hcur : current.phase ≠ "DRAGGING") :
    applyEffects s (onStateChange env previous current) =
      { pendingWindow := none, pendingDroppable := none } ∧
    flushScheduled (applyEffects s (onStateChange env previous current)) = [] := by
  have htrace : onStateChange env previous current =
      [Effect.cancelWindowScroll, Effect.cancelDroppableScroll] := by
    simp [onStateChange, hprev, hcur]
  rw [htrace]
  simp [applyEffects, applyEffect, flushScheduled]

/-- A scheduler state with a window scroll and a droppable scroll both
scheduled, as immediately before a drop. -/
def exPending : ScheduledScrolls :=
  applyEffects { pendingWindow := none, pendingDroppable := none }
    [Effect.scheduleWindowScroll { x := 0, y := 28 },
     Effect.scheduleDroppableScroll "drop-1" { x := 0, y := 5 }]

/-- A drop-animating state following the fluid example state. -/
def exStateDropAnimating : State :=
  { phase := "DROP_ANIMATING", drag := none, dimension := exDimension }

/-- Witness for C8: with both targets scheduled immediately before, the
DRAGGING → DROP_ANIMATING transition leaves both slots empty and the flush
performs nothing. -/
theorem onStateChange_leaving_cancels_witness :
    exPending.pendingWindow = some { x := 0, y := 28 } ∧
    exPending.pendingDroppable = some ("drop-1", { x := 0, y := 5 }) ∧
    applyEffects exPending (onStateChange exEnv exStateFluid exStateDropAnimating) =
      { pendingWindow := none, pendingDroppable := none } ∧
    flushScheduled
      (applyEffects exPending (onStateChange exEnv exStateFluid exStateDropAnimating)) = [] := by
  have h := onStateChange_leaving_cancels exEnv exStateFluid exStateDropAnimating exPending
    rfl (by simp [exStateDropAnimating])
  exact ⟨rfl, rfl, h.1, h.2⟩

/-- C9: a dragging-phase notification with no drag payload produces only
the error log, and a jump-mode dragging notification carrying a jump
request but no destination produces only the error log: in both cases no
scroll, schedule, move or cancel effect is emitted. -/
theorem onStateChange_invariant_violations (env : Env) (previous current : State) :
    (current.phase = "DRAGGING" → current.drag = none →
      onStateChange env previous current = [Effect.logError "invalid drag state"]) ∧
    (∀ drag request, current.phase = "DRAGGING" → current.drag = some drag →
      drag.initial.autoScrollMode ≠ "FLUID" →
      drag.scrollJumpRequest = some request →
      drag.impactDestination = none →
      onStateChange env previous current =
        [Effect.logError "Cannot perform a jump scroll when there is no destination"]) := by
  constructor
  · intro hphase hdrag
    simp [onStateChange, hphase, hdrag]
  · intro drag request hphase hdrag hmode hreq hdest
    simp [onStateChange, jumpScroll, hphase, hdrag, hmode, hreq, hdest]

/-- A dragging-phase state with a missing drag payload. -/
def exStateNoDrag : State :=
  { phase := "DRAGGING", drag := none, dimension := exDimension }

/-- The jump example drag with no destination. -/
def exDragJumpNoDest : DragState :=
  { exDragJump with impactDestination := none }

/-- A dragging-phase state around the jump drag with no destination. -/
def exStateJumpNoDest : State :=
  { phase := "DRAGGING", drag := some exDragJumpNoDest, dimension := exDimension }

/-- Witness for C9: both invariant violations at concrete states produce
exactly their error log. -/
theorem onStateChange_invariant_violations_witness :
    onStateChange exEnv exStateFluid exStateNoDrag =
      [Effect.logError "invalid drag state"] ∧
    onStateChange exEnv exStateFluid exStateJumpNoDest =
      [Effect.logError "Cannot perform a jump scroll when there is no destination"] := by
  constructor
  · exact (onStateChange_invariant_violations exEnv exStateFluid exStateNoDrag).1 rfl rfl
  · exact (onStateChange_invariant_violations exEnv exStateFluid exStateJumpNoDest).2
      exDragJumpNoDest { x := 0, y := 50 } rfl rfl (by simp [exDragJumpNoDest, exDragJump])
      rfl rfl

end AutoScrollMarshal
